import Mathlib

/-!
Shallow embedding of src/server.js (KokKokKok API v2.1.4), an Express
authentication and profile backend. The handlers are modelled as pure
functions over an explicit store (the users table as a list of rows), an
explicit environment (the optional JWT_SECRET variable), and an explicit
clock (seconds). The jsonwebtoken library is modelled abstractly: a signed
token is a container carrying its payload, expiry timestamp and signing
key; verification succeeds exactly when the presented key equals the
signing key and the clock has not reached the expiry, matching the
library's contract for sign with expiresIn and verify.
-/

/-- A row of the users relation. The columns used by server.js are
id (numeric primary key), user_id (human-chosen identifier), email,
name, password_hash and created_at. -/
structure UserRow where
  id : Nat
  user_id : String
  email : String
  name : String
  password_hash : String
  created_at : String
deriving DecidableEq

/-- The users table of the external store. -/
abbrev DB := List UserRow

/-- The five columns selected by the login query
(SELECT id, user_id, email, name, password_hash). -/
structure SelectedUser where
  id : Nat
  user_id : String
  email : String
  name : String
  password_hash : String
deriving DecidableEq

/-- The public projection sent back on login: the selected row with the
password_hash field removed (the rest destructuring on line 192). -/
structure UserData where
  id : Nat
  user_id : String
  email : String
  name : String
deriving DecidableEq

def selectUser (u : UserRow) : SelectedUser :=
  ⟨u.id, u.user_id, u.email, u.name, u.password_hash⟩

def omitPasswordHash (s : SelectedUser) : UserData :=
  ⟨s.id, s.user_id, s.email, s.name⟩

/-- JavaScript falsiness of an optional string: undefined and the empty
string are falsy. -/
def jsFalsy (v : Option String) : Bool :=
  match v with
  | none => true
  | some s => s == ""

/-- The JavaScript expression v or-else d on an optional environment
string: the default is used when the variable is undefined or empty. -/
def jsOr (v : Option String) (d : String) : String :=
  match v with
  | none => d
  | some s => if s == "" then d else s

/-- Model of the JavaScript expression s.trim(): strip leading and
trailing whitespace. Implemented over the character list so that it
reduces by evaluation. -/
def jsTrim (s : String) : String :=
  ⟨((s.data.dropWhile Char.isWhitespace).reverse.dropWhile
    Char.isWhitespace).reverse⟩

/-- The claim set embedded in a token at login (line 183):
userId is the numeric primary key, user_id the human-chosen identifier. -/
structure Claims where
  userId : Nat
  user_id : String
  email : String
deriving DecidableEq

/-- A well-formed signed JWT: payload, expiry timestamp (seconds since
epoch) and the key it was signed with. -/
structure SignedToken where
  payload : Claims
  exp : Nat
  key : String
deriving DecidableEq

/-- A presented token string is either a well-formed signed token or
malformed (not a JWT at all). -/
inductive Token where
  | signed (t : SignedToken)
  | malformed (raw : List Char)
deriving DecidableEq

/-- Seven days in seconds: the expiresIn 7d horizon of line 189. -/
def sevenDays : Nat := 7 * 24 * 60 * 60

/-- Model of jwt.sign(claims, secret, expiresIn 7d) at time now. -/
def jwtSign (c : Claims) (secret : String) (now : Nat) : Token :=
  .signed ⟨c, now + sevenDays, secret⟩

/-- Model of jwt.verify(token, secret) evaluated at time now: fails on a
malformed token, a signature made with a different key, or an expiry
that the clock has reached (the library rejects when now is at or past
exp). Success returns the embedded payload. -/
def jwtVerify (tok : Token) (secret : String) (now : Nat) : Option Claims :=
  match tok with
  | .malformed _ => none
  | .signed t => if t.key = secret ∧ now < t.exp then some t.payload else none

/-- Response shape of the login endpoint: HTTP status, the success flag,
the message, and the token / user projection / redirect fields that are
present only on the 200 path. -/
structure LoginResponse where
  status : Nat
  success : Bool
  message : String
  token : Option Token
  user : Option UserData
  redirect : Option String
deriving DecidableEq

/-- Outcome of a login request: the response plus whether a query was
issued to the store (pool.query reached). -/
structure LoginOutcome where
  resp : LoginResponse
  dbQueried : Bool
deriving DecidableEq

/-- The login lookup (lines 159-163): rows whose email or user_id equals
the supplied identifier, in table order; the handler uses rows[0]. -/
def findUsers (db : DB) (ident : String) : List UserRow :=
  db.filter (fun u => u.email == ident || u.user_id == ident)

/-- POST /api/auth/login (lines 141-210). Arguments: the JWT_SECRET
environment variable, the pool (none when the pool is unavailable), the
bcrypt.compare primitive, the clock, and the email and password body
fields (none when absent). -/
def login (env : Option String) (pool : Option DB)
    (bcryptCompare : String → String → Bool) (now : Nat)
    (email password : Option String) : LoginOutcome :=
  if jsFalsy email || jsFalsy password then
    ⟨⟨400, false, "Email and password are required", none, none, none⟩, false⟩
  else
    match pool with
    | none => ⟨⟨500, false, "Database connection not available", none, none, none⟩, false⟩
    | some db =>
      match findUsers db (email.getD "") with
      | [] => ⟨⟨401, false, "Invalid credentials", none, none, none⟩, true⟩
      | user :: _ =>
        let sel := selectUser user
        if bcryptCompare (password.getD "") sel.password_hash then
          ⟨⟨200, true, "Login successful",
            some (jwtSign ⟨user.id, user.user_id, user.email⟩
              (jsOr env "development-secret") now),
            some (omitPasswordHash sel), some "/dashboard"⟩, true⟩
        else
          ⟨⟨401, false, "Invalid credentials", none, none, none⟩, true⟩

/-- Model of the JavaScript expression s.split(" ") on a string viewed as
its character list: splits at every space, keeping empty pieces, so the
result always has one more element than the string has spaces. -/
def jsSplit : List Char → List (List Char)
  | [] => [[]]
  | c :: rest =>
    if c = ' ' then [] :: jsSplit rest
    else
      match jsSplit rest with
      | [] => [[c]]
      | l :: ls => (c :: l) :: ls

/-- Token extraction of lines 60-68: authHeader and authHeader.split(" ")[1],
then the falsiness test on the result. Yields none exactly when the
handler answers 401 Access token required. -/
def extractToken (authHeader : Option (List Char)) : Option (List Char) :=
  match authHeader with
  | none => none
  | some h =>
    match (jsSplit h).get? 1 with
    | none => none
    | some t => if t = [] then none else some t

/-- Result of the authenticateToken middleware: no token presented,
token presented but rejected by jwt.verify, or verified claims attached
to the request. -/
inductive AuthResult where
  | missing
  | invalid
  | ok (user : Claims)
deriving DecidableEq

/-- Bare JSON response used by middleware failures and the API catch-all. -/
structure SimpleResponse where
  status : Nat
  success : Bool
  message : String
deriving DecidableEq

/-- The authenticateToken middleware (lines 59-80). tokenOf is the ambient
JWT decoding of presented token strings (which strings parse as which
signed or malformed tokens); env is JWT_SECRET; the verify key fallback
is the literal of line 70. -/
def authenticateToken (tokenOf : List Char → Token) (env : Option String)
    (now : Nat) (authHeader : Option (List Char)) : AuthResult :=
  match extractToken authHeader with
  | none => .missing
  | some s =>
    match jwtVerify (tokenOf s) (jsOr env "your-secret-key") now with
    | none => .invalid
    | some u => .ok u

/-- HTTP mapping of the middleware: 401 when no token, 403 for every
rejected token, none when the request proceeds to the handler. -/
def authFailureResponse : AuthResult → Option SimpleResponse
  | .missing => some ⟨401, false, "Access token required"⟩
  | .invalid => some ⟨403, false, "Invalid or expired token"⟩
  | .ok _ => none

/-- Request body of the update-profile endpoint. The handler destructures
only name (line 218); a client-supplied userId field is modelled here
precisely to show it is never read. -/
structure Body where
  name : Option String
  userId : Option Nat
deriving DecidableEq

/-- The row shape of the UPDATE query's RETURNING clause
(RETURNING id, name, email, created_at, line 250). -/
structure UpdatedRow where
  id : Nat
  name : String
  email : String
  created_at : String
deriving DecidableEq

/-- Response shape of the update-profile endpoint. -/
structure UpdateResponse where
  status : Nat
  success : Bool
  message : String
  user : Option UpdatedRow
deriving DecidableEq

/-- Outcome of an update-profile request: the response, the resulting
store state (none when the pool was unavailable) and whether the UPDATE
statement was executed. -/
structure UpdateOutcome where
  resp : UpdateResponse
  db : Option DB
  updateExecuted : Bool
deriving DecidableEq

/-- Rendering of JSON.stringify(req.user) used in the 400 message of
line 239. -/
def jsonClaims (c : Claims) : String :=
  "\x7b\"userId\":" ++ toString c.userId ++ ",\"user_id\":\"" ++ c.user_id
    ++ "\",\"email\":\"" ++ c.email ++ "\"\x7d"

/-- PUT /api/auth/update-profile (lines 213-280), entered after the
middleware succeeded: tokenUser is req.user, the validated token's
claims. The row key of the UPDATE is tokenUser.userId (line 221); the
body's userId field is never consulted. Name falsiness and whitespace
are checked first (line 229), before any store access. -/
def updateProfile (pool : Option DB) (tokenUser : Claims) (body : Body) :
    UpdateOutcome :=
  let name := body.name
  let userId := tokenUser.userId
  if jsFalsy name || jsTrim (name.getD "") == "" then
    ⟨⟨400, false, "Name is required", none⟩, pool, false⟩
  else if userId == 0 then
    ⟨⟨400, false, "User ID is required. Token contains: " ++ jsonClaims tokenUser,
      none⟩, pool, false⟩
  else
    match pool with
    | none => ⟨⟨500, false, "Database connection not available", none⟩, none, false⟩
    | some db =>
      let trimmed := jsTrim (name.getD "")
      let updatedRows :=
        (db.filter (fun u => u.id == userId)).map
          (fun u => { u with name := trimmed })
      let db' := db.map (fun u => if u.id == userId then { u with name := trimmed } else u)
      match updatedRows with
      | [] =>
        ⟨⟨404, false, "User not found with ID: " ++ toString userId, none⟩,
          some db', true⟩
      | r :: _ =>
        ⟨⟨200, true, "Profile updated successfully",
          some ⟨r.id, r.name, r.email, r.created_at⟩⟩, some db', true⟩

/-- HTTP methods used by the API routes of server.js. -/
inductive Method where
  | GET
  | POST
  | PUT
deriving DecidableEq

/-- Which registered handler an /api request reaches. The debug-token
route of line 304 is registered after the /api/* catch-all of line 291,
so Express never reaches it; it does not appear here. -/
inductive ApiHandlerTag where
  | health
  | authHealth
  | loginRoute
  | updateProfileRoute
  | apiCatchAll
  | nonApi
deriving DecidableEq

/-- The characters of the /api/ mount prefix of the catch-all route. -/
def apiPrefix : List Char := ['/', 'a', 'p', 'i', '/']

/-- Whether a path falls under the /api/* mount of line 291, as a prefix
test on the path's characters. -/
def isApiPath (path : String) : Bool := path.data.take 5 == apiPrefix

/-- Route dispatch for API paths, in registration order (lines 83, 112,
141, 213, then the /api/* catch-all of line 291). The query string is
not part of Express path matching. -/
def dispatchApi (m : Method) (path : String) : ApiHandlerTag :=
  if m = .GET ∧ path = "/api/health" then .health
  else if m = .GET ∧ path = "/api/auth/health" then .authHealth
  else if m = .POST ∧ path = "/api/auth/login" then .loginRoute
  else if m = .PUT ∧ path = "/api/auth/update-profile" then .updateProfileRoute
  else if isApiPath path then .apiCatchAll
  else .nonApi

/-- The /api/* catch-all response (lines 291-296), independent of the
store and of the query string. -/
def apiCatchAllResponse : SimpleResponse :=
  ⟨404, false, "API endpoint not found"⟩

/-- A sample stored identity used to instantiate theorems. -/
def row282 : UserRow :=
  ⟨282, "alice", "alice@example.com", "Alice", "hash282", "2025-01-01"⟩

/-- A sample secret-comparison primitive standing in for bcrypt.compare
when instantiating theorems: the model treats the primitive as an
external parameter. -/
def eqCompare : String → String → Bool := fun s h => s == h

/-- Unfolding of the login guard branch: absent or empty credentials
answer 400 before the pool is consulted. -/
theorem login_guard_eq (env : Option String) (pool : Option DB)
    (cmp : String → String → Bool) (now : Nat) (email password : Option String)
    (h : (jsFalsy email || jsFalsy password) = true) :
    login env pool cmp now email password =
      ⟨⟨400, false, "Email and password are required", none, none, none⟩, false⟩ := by
  simp [login, h]

/-- Unfolding of the zero-match branch of login. -/
theorem login_no_match_eq (env : Option String) (db : DB)
    (cmp : String → String → Bool) (now : Nat) (email password : Option String)
    (h1 : jsFalsy email = false) (h2 : jsFalsy password = false)
    (hf : findUsers db (email.getD "") = []) :
    login env (some db) cmp now email password =
      ⟨⟨401, false, "Invalid credentials", none, none, none⟩, true⟩ := by
  simp [login, h1, h2, hf]

/-- Unfolding of the wrong-secret branch of login. -/
theorem login_bad_password_eq (env : Option String) (db : DB)
    (cmp : String → String → Bool) (now : Nat) (email password : Option String)
    (u : UserRow) (rest : List UserRow)
    (h1 : jsFalsy email = false) (h2 : jsFalsy password = false)
    (hf : findUsers db (email.getD "") = u :: rest)
    (hc : cmp (password.getD "") u.password_hash = false) :
    login env (some db) cmp now email password =
      ⟨⟨401, false, "Invalid credentials", none, none, none⟩, true⟩ := by
  simp [login, h1, h2, hf, selectUser, hc]

/-- Unfolding of the success branch of login. -/
theorem login_success_eq (env : Option String) (db : DB)
    (cmp : String → String → Bool) (now : Nat) (email password : Option String)
    (u : UserRow) (rest : List UserRow)
    (h1 : jsFalsy email = false) (h2 : jsFalsy password = false)
    (hf : findUsers db (email.getD "") = u :: rest)
    (hc : cmp (password.getD "") u.password_hash = true) :
    login env (some db) cmp now email password =
      ⟨⟨200, true, "Login successful",
        some (jwtSign ⟨u.id, u.user_id, u.email⟩ (jsOr env "development-secret") now),
        some (omitPasswordHash (selectUser u)), some "/dashboard"⟩, true⟩ := by
  simp [login, h1, h2, hf, selectUser, hc]

/-- C1: the login step signs tokens with the fallback key
development-secret (line 188) while the middleware verifies with the
fallback key your-secret-key (line 70); with JWT_SECRET unset, every
token the issuer produces is rejected by the validator at every time,
contradicting the round-trip claim. -/
theorem issued_token_rejected_when_secret_unset
    (db : DB) (cmp : String → String → Bool) (now now2 : Nat)
    (email password : Option String) (tk : Token)
    (htk : (login none (some db) cmp now email password).resp.token = some tk) :
    jwtVerify tk (jsOr none "your-secret-key") now2 = none := by
  have hkey : ("development-secret" : String) ≠ "your-secret-key" := by decide
  unfold login at htk
  by_cases h : (jsFalsy email || jsFalsy password) = true
  · simp [h] at htk
  · rw [Bool.not_eq_true] at h
    simp only [h] at htk
    cases hf : findUsers db (email.getD "") with
    | nil => rw [hf] at htk; simp at htk
    | cons u rest =>
      rw [hf] at htk
      by_cases hc : cmp (password.getD "") (selectUser u).password_hash = true
      · simp only [hc] at htk
        simp at htk
        subst htk
        simp [jwtSign, jwtVerify, jsOr, hkey]
      · rw [Bool.not_eq_true] at hc
        simp [hc] at htk

/-- Witness for C1: a concrete successful login with JWT_SECRET unset
whose token the validator rejects. -/
theorem issued_token_rejected_when_secret_unset_witness :
    jwtVerify (jwtSign ⟨282, "alice", "alice@example.com"⟩ "development-secret" 5)
      (jsOr none "your-secret-key") 6 = none :=
  issued_token_rejected_when_secret_unset [row282] eqCompare 5 6
    (some "alice") (some "hash282") _ rfl

/-- C3: a login request whose identifier or secret is absent or empty is
answered 400 Email and password are required, and no query is issued to
the store. -/
theorem login_missing_credentials_no_store_access
    (env : Option String) (pool : Option DB) (cmp : String → String → Bool)
    (now : Nat) (email password : Option String)
    (h : (jsFalsy email || jsFalsy password) = true) :
    (login env pool cmp now email password).resp.status = 400 ∧
    (login env pool cmp now email password).resp.message =
      "Email and password are required" ∧
    (login env pool cmp now email password).dbQueried = false := by
  rw [login_guard_eq env pool cmp now email password h]
  exact ⟨rfl, rfl, rfl⟩

/-- Witness for C3: an absent identifier with a non-empty secret. -/
theorem login_missing_credentials_witness :
    (login none (some [row282]) eqCompare 0 none (some "pw")).resp.status = 400 ∧
    (login none (some [row282]) eqCompare 0 none (some "pw")).resp.message =
      "Email and password are required" ∧
    (login none (some [row282]) eqCompare 0 none (some "pw")).dbQueried = false :=
  login_missing_credentials_no_store_access none (some [row282]) eqCompare 0
    none (some "pw") rfl

/-- C4: with non-empty credentials, the response when no identity matches
the identifier equals the response when an identity matches but the
secret fails the stored-hash comparison: both are 401 Invalid
credentials, byte for byte. -/
theorem login_unknown_and_wrong_password_indistinguishable
    (env : Option String) (db : DB) (cmp : String → String → Bool) (now : Nat)
    (e1 p1 e2 p2 : Option String) (u : UserRow) (rest : List UserRow)
    (h1 : jsFalsy e1 = false) (h2 : jsFalsy p1 = false)
    (h3 : jsFalsy e2 = false) (h4 : jsFalsy p2 = false)
    (hf1 : findUsers db (e1.getD "") = [])
    (hf2 : findUsers db (e2.getD "") = u :: rest)
    (hc : cmp (p2.getD "") u.password_hash = false) :
    (login env (some db) cmp now e1 p1).resp =
      (login env (some db) cmp now e2 p2).resp ∧
    (login env (some db) cmp now e1 p1).resp.status = 401 ∧
    (login env (some db) cmp now e1 p1).resp.message = "Invalid credentials" := by
  rw [login_no_match_eq env db cmp now e1 p1 h1 h2 hf1,
    login_bad_password_eq env db cmp now e2 p2 u rest h3 h4 hf2 hc]
  exact ⟨rfl, rfl, rfl⟩

/-- Witness for C4: an unknown identifier versus a wrong secret against
the stored row, same 401 response. -/
theorem login_unknown_and_wrong_password_witness :
    (login none (some [row282]) eqCompare 5 (some "nobody") (some "x")).resp =
      (login none (some [row282]) eqCompare 5 (some "alice") (some "wrong")).resp ∧
    (login none (some [row282]) eqCompare 5 (some "nobody") (some "x")).resp.status = 401 ∧
    (login none (some [row282]) eqCompare 5 (some "nobody") (some "x")).resp.message =
      "Invalid credentials" :=
  login_unknown_and_wrong_password_indistinguishable none [row282] eqCompare 5
    (some "nobody") (some "x") (some "alice") (some "wrong") row282 []
    rfl rfl rfl rfl (by decide) (by decide) (by decide)

/-- C7: a token minted with the seven-day horizon of line 189 fails
verification one second past its expiry, for every signing and
verification key. -/
theorem token_expired_after_seven_days_plus_one
    (c : Claims) (signingKey verifyKey : String) (t : Nat) :
    jwtVerify (jwtSign c signingKey t) verifyKey (t + 7 * 24 * 60 * 60 + 1) = none := by
  simp only [jwtSign, jwtVerify, sevenDays]
  rw [if_neg]
  rintro ⟨-, h⟩
  omega

/-- C9: a successful login answers 200 with the signed token and the
projection of the matched row from which password_hash has been removed;
the projection is invariant under the stored hash. -/
theorem login_success_response_omits_hash
    (env : Option String) (db : DB) (cmp : String → String → Bool) (now : Nat)
    (email password : Option String) (u : UserRow) (rest : List UserRow)
    (h1 : jsFalsy email = false) (h2 : jsFalsy password = false)
    (hf : findUsers db (email.getD "") = u :: rest)
    (hc : cmp (password.getD "") u.password_hash = true) :
    (login env (some db) cmp now email password).resp =
      ⟨200, true, "Login successful",
        some (jwtSign ⟨u.id, u.user_id, u.email⟩ (jsOr env "development-secret") now),
        some ⟨u.id, u.user_id, u.email, u.name⟩, some "/dashboard"⟩ ∧
    (∀ h' : String,
      omitPasswordHash ⟨u.id, u.user_id, u.email, u.name, h'⟩ =
        omitPasswordHash (selectUser u)) := by
  rw [login_success_eq env db cmp now email password u rest h1 h2 hf hc]
  exact ⟨rfl, fun h' => rfl⟩

/-- Witness for C9: a concrete successful login. -/
theorem login_success_response_witness :
    (login none (some [row282]) eqCompare 5 (some "alice") (some "hash282")).resp =
      ⟨200, true, "Login successful",
        some (jwtSign ⟨282, "alice", "alice@example.com"⟩
          (jsOr none "development-secret") 5),
        some ⟨282, "alice", "alice@example.com", "Alice"⟩, some "/dashboard"⟩ ∧
    (∀ h' : String,
      omitPasswordHash ⟨282, "alice", "alice@example.com", "Alice", h'⟩ =
        omitPasswordHash (selectUser row282)) :=
  login_success_response_omits_hash none [row282] eqCompare 5
    (some "alice") (some "hash282") row282 [] rfl rfl (by decide) (by decide)

/-- A split of a string containing no space is the single whole string. -/
theorem jsSplit_no_space : ∀ (cs : List Char), ' ' ∉ cs → jsSplit cs = [cs]
  | [], _ => rfl
  | c :: rest, h => by
    have hc : ¬ c = ' ' := fun hEq => h (by simp [hEq])
    have hr : ' ' ∉ rest := fun hm => h (List.mem_cons_of_mem _ hm)
    simp only [jsSplit, if_neg hc, jsSplit_no_space rest hr]

/-- Splitting a spaceless word, a space, then a remainder yields the word
followed by the split of the remainder. -/
theorem jsSplit_word_space : ∀ (w rest : List Char), ' ' ∉ w →
    jsSplit (w ++ ' ' :: rest) = w :: jsSplit rest
  | [], rest, _ => by simp [jsSplit]
  | c :: w2, rest, h => by
    have hc : ¬ c = ' ' := fun hEq => h (by simp [hEq])
    have hw : ' ' ∉ w2 := fun hm => h (List.mem_cons_of_mem _ hm)
    show jsSplit (c :: (w2 ++ ' ' :: rest)) = (c :: w2) :: jsSplit rest
    simp only [jsSplit, if_neg hc, jsSplit_word_space w2 rest hw]

/-- Unfolding of the middleware when a token string was extracted. -/
theorem authenticateToken_some_eq (tokenOf : List Char → Token)
    (env : Option String) (now : Nat) (hdr : Option (List Char))
    (s : List Char) (h : extractToken hdr = some s) :
    authenticateToken tokenOf env now hdr =
      match jwtVerify (tokenOf s) (jsOr env "your-secret-key") now with
      | none => .invalid
      | some u => .ok u := by
  unfold authenticateToken
  rw [h]

/-- C10: the middleware takes the second space-separated field of the
Authorization header without inspecting the scheme word: any header of
the form word-space-token hands the token to verification with the same
outcome as a Bearer-prefixed header, while a header containing no space
at all is treated as no token presented. -/
theorem auth_header_scheme_ignored
    (tokenOf : List Char → Token) (env : Option String) (now : Nat) :
    (∀ (scheme tok : List Char), (' ' ∉ scheme) → (' ' ∉ tok) → tok ≠ [] →
      extractToken (some (scheme ++ ' ' :: tok)) = some tok ∧
      authenticateToken tokenOf env now (some (scheme ++ ' ' :: tok)) =
        authenticateToken tokenOf env now
          (some ("Bearer".toList ++ ' ' :: tok))) ∧
    (∀ (h : List Char), (' ' ∉ h) →
      extractToken (some h) = none ∧
      authenticateToken tokenOf env now (some h) = .missing) := by
  have hext : ∀ (scheme tok : List Char), ' ' ∉ scheme → ' ' ∉ tok → tok ≠ [] →
      extractToken (some (scheme ++ ' ' :: tok)) = some tok := by
    intro scheme tok hs ht htok
    simp only [extractToken, jsSplit_word_space scheme tok hs,
      jsSplit_no_space tok ht]
    simp [htok]
  refine ⟨fun scheme tok hs ht htok => ⟨hext scheme tok hs ht htok, ?_⟩, ?_⟩
  · have hB : (' ' ∉ "Bearer".toList) := by decide
    rw [authenticateToken_some_eq tokenOf env now _ tok
        (hext scheme tok hs ht htok),
      authenticateToken_some_eq tokenOf env now _ tok
        (hext "Bearer".toList tok hB ht htok)]
  · intro h hh
    have he : extractToken (some h) = none := by
      simp only [extractToken, jsSplit_no_space h hh]
      rfl
    refine ⟨he, ?_⟩
    unfold authenticateToken
    rw [he]

/-- Witness for C10: the scheme word Token is accepted like Bearer, and a
bare token with no scheme is treated as missing. -/
theorem auth_header_scheme_ignored_witness :
    extractToken (some ("Token abc".toList)) = some ("abc".toList) ∧
    authenticateToken (fun _ => Token.malformed []) none 0
      (some ("Token abc".toList)) =
      authenticateToken (fun _ => Token.malformed []) none 0
        (some ("Bearer abc".toList)) ∧
    extractToken (some ("abc".toList)) = none ∧
    authenticateToken (fun _ => Token.malformed []) none 0
      (some ("abc".toList)) = .missing := by
  have h1 := (auth_header_scheme_ignored (fun _ => Token.malformed []) none 0).1
    "Token".toList "abc".toList (by decide) (by decide) (by decide)
  have h2 := (auth_header_scheme_ignored (fun _ => Token.malformed []) none 0).2
    "abc".toList (by decide)
  exact ⟨h1.1, h1.2, h2.1, h2.2⟩

/-- C5: the middleware answers 401 Access token required exactly when no
token is extracted from the header, and answers the single 403 Invalid
or expired token response for every presented-but-rejected token,
whether it is malformed, signed with a key other than the verification
key, or past its expiry. -/
theorem token_failures_conflated
    (tokenOf : List Char → Token) (env : Option String) (now : Nat)
    (hdr : Option (List Char)) :
    (authenticateToken tokenOf env now hdr = .missing ↔
      extractToken hdr = none) ∧
    authFailureResponse .missing = some ⟨401, false, "Access token required"⟩ ∧
    authFailureResponse .invalid = some ⟨403, false, "Invalid or expired token"⟩ ∧
    (∀ s, extractToken hdr = some s →
      (∀ raw, tokenOf s = .malformed raw →
        authenticateToken tokenOf env now hdr = .invalid) ∧
      (∀ t, tokenOf s = .signed t → t.key ≠ jsOr env "your-secret-key" →
        authenticateToken tokenOf env now hdr = .invalid) ∧
      (∀ t, tokenOf s = .signed t → t.exp ≤ now →
        authenticateToken tokenOf env now hdr = .invalid)) := by
  refine ⟨⟨?_, ?_⟩, rfl, rfl, ?_⟩
  · intro h
    cases hE : extractToken hdr with
    | none => rfl
    | some s =>
      rw [authenticateToken_some_eq tokenOf env now hdr s hE] at h
      cases hV : jwtVerify (tokenOf s) (jsOr env "your-secret-key") now with
      | none => rw [hV] at h; simp at h
      | some u => rw [hV] at h; simp at h
  · intro h
    unfold authenticateToken
    rw [h]
  · intro s hs
    refine ⟨?_, ?_, ?_⟩
    · intro raw hm
      rw [authenticateToken_some_eq tokenOf env now hdr s hs, hm]
      rfl
    · intro t ht hk
      rw [authenticateToken_some_eq tokenOf env now hdr s hs, ht]
      have hv : jwtVerify (.signed t) (jsOr env "your-secret-key") now = none := by
        simp only [jwtVerify]
        rw [if_neg]
        rintro ⟨hkey, -⟩
        exact hk hkey
      rw [hv]
    · intro t ht hexp
      rw [authenticateToken_some_eq tokenOf env now hdr s hs, ht]
      have hv : jwtVerify (.signed t) (jsOr env "your-secret-key") now = none := by
        simp only [jwtVerify]
        rw [if_neg]
        rintro ⟨-, hlt⟩
        omega
      rw [hv]

/-- Witness for C5: a malformed token, a token signed with a different
key, and an expired token all draw the same invalid verdict, and an
absent token draws the missing verdict. -/
theorem token_failures_conflated_witness :
    authenticateToken (fun _ => Token.malformed []) none 0
      (some ("Bearer x".toList)) = .invalid ∧
    authenticateToken (fun _ => Token.signed ⟨⟨1, "u", "e"⟩, 100, "wrong-key"⟩)
      none 0 (some ("Bearer x".toList)) = .invalid ∧
    authenticateToken
      (fun _ => Token.signed ⟨⟨1, "u", "e"⟩, 100, "your-secret-key"⟩)
      none 100 (some ("Bearer x".toList)) = .invalid ∧
    authenticateToken (fun _ => Token.malformed []) none 0 none = .missing := by
  refine ⟨?_, ?_, ?_, ?_⟩
  · exact ((token_failures_conflated (fun _ => Token.malformed []) none 0
      (some ("Bearer x".toList))).2.2.2 "x".toList rfl).1 [] rfl
  · exact ((token_failures_conflated
      (fun _ => Token.signed ⟨⟨1, "u", "e"⟩, 100, "wrong-key"⟩) none 0
      (some ("Bearer x".toList))).2.2.2 "x".toList rfl).2.1
      ⟨⟨1, "u", "e"⟩, 100, "wrong-key"⟩ rfl (by decide)
  · exact ((token_failures_conflated
      (fun _ => Token.signed ⟨⟨1, "u", "e"⟩, 100, "your-secret-key"⟩) none 100
      (some ("Bearer x".toList))).2.2.2 "x".toList rfl).2.2
      ⟨⟨1, "u", "e"⟩, 100, "your-secret-key"⟩ rfl (by decide)
  · exact (token_failures_conflated (fun _ => Token.malformed []) none 0
      none).1.mpr rfl

/-- Unfolding of the blank-name guard of update-profile: the request is
rejected 400 before the pool is consulted and the store is returned
untouched. -/
theorem updateProfile_blank_eq (pool : Option DB) (c : Claims) (b : Body)
    (h : (jsFalsy b.name || (jsTrim (b.name.getD "") == "")) = true) :
    updateProfile pool c b =
      ⟨⟨400, false, "Name is required", none⟩, pool, false⟩ := by
  simp [updateProfile, h]

/-- Unfolding of the falsy-userId guard of update-profile. -/
theorem updateProfile_userid_zero_eq (pool : Option DB) (c : Claims) (b : Body)
    (h1 : (jsFalsy b.name || (jsTrim (b.name.getD "") == "")) = false)
    (h2 : (c.userId == 0) = true) :
    updateProfile pool c b =
      ⟨⟨400, false, "User ID is required. Token contains: " ++ jsonClaims c,
        none⟩, pool, false⟩ := by
  simp [updateProfile, h1, h2]

/-- Unfolding of update-profile past both guards with an available pool:
the UPDATE runs, keyed on the token's numeric id. -/
theorem updateProfile_run_eq (db : DB) (c : Claims) (b : Body)
    (h1 : (jsFalsy b.name || (jsTrim (b.name.getD "") == "")) = false)
    (h2 : (c.userId == 0) = false) :
    updateProfile (some db) c b =
      (match (db.filter (fun u => u.id == c.userId)).map
          (fun u => { u with name := jsTrim (b.name.getD "") }) with
       | [] =>
         ⟨⟨404, false, "User not found with ID: " ++ toString c.userId, none⟩,
           some (db.map (fun u =>
             if u.id == c.userId
             then { u with name := jsTrim (b.name.getD "") } else u)), true⟩
       | r :: _ =>
         ⟨⟨200, true, "Profile updated successfully",
             some ⟨r.id, r.name, r.email, r.created_at⟩⟩,
           some (db.map (fun u =>
             if u.id == c.userId
             then { u with name := jsTrim (b.name.getD "") } else u)), true⟩) := by
  simp [updateProfile, h1, h2]

/-- C6: an update-profile request whose name is absent, empty or
whitespace-only is rejected 400 Name is required, the store is returned
unchanged and no UPDATE statement is executed. -/
theorem update_blank_name_rejected (pool : Option DB) (c : Claims) (b : Body)
    (h : jsTrim (b.name.getD "") = "") :
    updateProfile pool c b =
      ⟨⟨400, false, "Name is required", none⟩, pool, false⟩ := by
  apply updateProfile_blank_eq
  simp [h]

/-- Witness for C6: a whitespace-only name against a populated store. -/
theorem update_blank_name_rejected_witness :
    updateProfile (some [row282]) ⟨282, "alice", "alice@example.com"⟩
      ⟨some "   ", some 7⟩ =
      ⟨⟨400, false, "Name is required", none⟩, some [row282], false⟩ :=
  update_blank_name_rejected (some [row282]) ⟨282, "alice", "alice@example.com"⟩
    ⟨some "   ", some 7⟩ (by decide)

/-- C8: the UPDATE row key is the numeric id of the validated token's
claims. The outcome is invariant under every body field other than name
(in particular a client-supplied body userId is never read), rows whose
id differs from the token's numeric id survive unchanged, every changed
row carries the token's numeric id, and the row returned on success is
the one keyed by the token's numeric id. -/
theorem update_keyed_by_token_id (db : DB) (c : Claims) (b b2 : Body)
    (hn : b.name = b2.name) :
    (updateProfile (some db) c b = updateProfile (some db) c b2) ∧
    (∀ db2, (updateProfile (some db) c b).db = some db2 →
      (∀ u ∈ db, u.id ≠ c.userId → u ∈ db2) ∧
      (∀ v ∈ db2, v ∈ db ∨
        (v.id = c.userId ∧ v.name = jsTrim (b.name.getD "")))) ∧
    (∀ r, (updateProfile (some db) c b).resp.user = some r →
      r.id = c.userId) := by
  refine ⟨?_, ?_, ?_⟩
  · obtain ⟨n, uid⟩ := b
    obtain ⟨n2, uid2⟩ := b2
    simp only at hn
    subst hn
    rfl
  · intro db2 hdb
    by_cases h1 : (jsFalsy b.name || (jsTrim (b.name.getD "") == "")) = true
    · rw [updateProfile_blank_eq (some db) c b h1] at hdb
      have hdb2 : db = db2 := by simpa using hdb
      subst hdb2
      exact ⟨fun u hu _ => hu, fun v hv => Or.inl hv⟩
    · rw [Bool.not_eq_true] at h1
      by_cases h2 : (c.userId == 0) = true
      · rw [updateProfile_userid_zero_eq (some db) c b h1 h2] at hdb
        have hdb2 : db = db2 := by simpa using hdb
        subst hdb2
        exact ⟨fun u hu _ => hu, fun v hv => Or.inl hv⟩
      · rw [Bool.not_eq_true] at h2
        rw [updateProfile_run_eq db c b h1 h2] at hdb
        have hdb2 : db2 = db.map (fun u =>
            if u.id == c.userId
            then { u with name := jsTrim (b.name.getD "") } else u) := by
          cases hL : (db.filter (fun u => u.id == c.userId)).map
              (fun u => { u with name := jsTrim (b.name.getD "") }) with
          | nil => rw [hL] at hdb; simpa using hdb.symm
          | cons r rest => rw [hL] at hdb; simpa using hdb.symm
        subst hdb2
        constructor
        · intro u hu hne
          refine List.mem_map.mpr ⟨u, hu, ?_⟩
          simp [hne]
        · intro v hv
          obtain ⟨u, hu, huv⟩ := List.mem_map.mp hv
          by_cases hid : u.id = c.userId
          · right
            rw [if_pos (by simp [hid])] at huv
            refine ⟨?_, ?_⟩ <;> simp [← huv, hid]
          · left
            rw [if_neg (by simp [hid])] at huv
            exact huv ▸ hu
  · intro r hr
    by_cases h1 : (jsFalsy b.name || (jsTrim (b.name.getD "") == "")) = true
    · rw [updateProfile_blank_eq (some db) c b h1] at hr
      simp at hr
    · rw [Bool.not_eq_true] at h1
      by_cases h2 : (c.userId == 0) = true
      · rw [updateProfile_userid_zero_eq (some db) c b h1 h2] at hr
        simp at hr
      · rw [Bool.not_eq_true] at h2
        rw [updateProfile_run_eq db c b h1 h2] at hr
        cases hL : (db.filter (fun u => u.id == c.userId)).map
            (fun u => { u with name := jsTrim (b.name.getD "") }) with
        | nil => rw [hL] at hr; simp at hr
        | cons r0 rest =>
          rw [hL] at hr
          have hrr : r = ⟨r0.id, r0.name, r0.email, r0.created_at⟩ := by
            simpa using hr.symm
          have hmem : r0 ∈ (db.filter (fun u => u.id == c.userId)).map
              (fun u => { u with name := jsTrim (b.name.getD "") }) := by
            rw [hL]
            exact List.mem_cons_self _ _
          obtain ⟨u, hu, hur⟩ := List.mem_map.mp hmem
          have hid : u.id = c.userId := by
            simpa using (List.mem_filter.mp hu).2
          rw [hrr]
          show r0.id = c.userId
          rw [← hur]
          exact hid

/-- Witness for C8: two bodies agreeing on name but differing on a
client-supplied userId produce the same outcome against the store. -/
theorem update_keyed_by_token_id_witness :
    updateProfile (some [row282]) ⟨282, "alice", "alice@example.com"⟩
      ⟨some "Jane", some 999⟩ =
      updateProfile (some [row282]) ⟨282, "alice", "alice@example.com"⟩
        ⟨some "Jane", none⟩ :=
  (update_keyed_by_token_id [row282] ⟨282, "alice", "alice@example.com"⟩
    ⟨some "Jane", some 999⟩ ⟨some "Jane", none⟩ rfl).1

/-- C2 counterexample: with a store holding an identity record matched by
the identifier alice, the request GET /api/auth/profile still reaches
only the /api/* catch-all and is answered 404, not 200: no profile-read
route exists in this revision. -/
theorem profile_read_counterexample :
    dispatchApi .GET "/api/auth/profile" = .apiCatchAll ∧
    apiCatchAllResponse.status = 404 ∧
    ¬ apiCatchAllResponse.status = 200 ∧
    findUsers [row282] "alice" = [row282] := by
  refine ⟨by decide, rfl, by decide, by decide⟩

/-- C2 (amended): every GET request for /api/auth/profile is dispatched
to the /api/* catch-all, whatever the store contents and whatever
identifier is queried, and that catch-all answers 404 API endpoint not
found; the 200 projection path of the claim does not exist. -/
theorem profile_read_always_catchall (_db : DB) (_ident : String) :
    dispatchApi .GET "/api/auth/profile" = .apiCatchAll ∧
    apiCatchAllResponse = ⟨404, false, "API endpoint not found"⟩ :=
  ⟨by decide, rfl⟩
